import Mathlib

/-!
# Health checking of load-balanced servers (`pkg/healthcheck/healthcheck.go`)

A shallow embedding of the service health checker: the constructor
`NewServiceHealthChecker`, the probe executors `checkHealthHTTP` and
`checkHealthGRPC`, the reporting step `targetHealthCheck`, and the goroutines
started by `Launch` and `LaunchTargetHealthCheck`, the latter as an
interleaving transition system whose atomic steps are runs of one goroutine
between two of its communication points.

Conventions.
* A Go `error` result is an `Option Error` (`none` is `nil`); a Go
  `(value, error)` result is an `Except Error value`.
* `time.Duration`, status codes and ports are `Int`; the source performs no
  arithmetic on them besides comparisons, so no overflow can occur.
* The standard library, the gRPC library and the network are the fields of
  `Env`; the three reporting collaborators (status setter, service info,
  metrics gauge) are observed through the list of `Event`s they receive.
-/

namespace healthcheck

/-! ## Errors -/

/-- The gRPC status codes of `google.golang.org/grpc/codes`, by their numeric value order. -/
inductive codes
  | OK
  | Canceled
  | Unknown
  | InvalidArgument
  | DeadlineExceeded
  | NotFound
  | AlreadyExists
  | PermissionDenied
  | ResourceExhausted
  | FailedPrecondition
  | Aborted
  | OutOfRange
  | Unimplemented
  | Internal
  | Unavailable
  | DataLoss
  | Unauthenticated
  deriving DecidableEq, Repr

/-- Go `error` values, as far as the checker can tell them apart:
the two sentinels of package `context`, an error made of a message only,
a gRPC status error, and an error made by `fmt.Errorf` with the verb `%w`
(the text before the wrapped error, and the wrapped error). -/
inductive Error
  | Canceled
  | DeadlineExceeded
  | New (msg : String)
  | Status (code : codes) (msg : String)
  | Wrap (msg : String) (err : Error)
  deriving DecidableEq, Repr

/-- The sentinel `context.Canceled`. -/
def context.Canceled : Error := Error.Canceled

/-- The sentinel `context.DeadlineExceeded`. -/
def context.DeadlineExceeded : Error := Error.DeadlineExceeded

/-- The function `errors.Is` for a sentinel target: the error itself or one of the
errors it wraps (following `Unwrap`) is the target. -/
def errors.Is : Error → Error → Bool
  | Error.Wrap msg inner, target =>
      if Error.Wrap msg inner = target then true else errors.Is inner target
  | err, target => decide (err = target)

/-- The function `status.FromError`: the code of a gRPC status error, also when
it is wrapped; `none` stands for `ok == false`. -/
def status.FromError : Error → Option codes
  | Error.Status code _ => some code
  | Error.Wrap _ inner => status.FromError inner
  | _ => none

/-! ## Library types -/

/-- A `context.Context`: whether `Done()` is closed by cancellation, and the deadline. -/
structure Context where
  done : Bool
  deadline : Option Int
  deriving DecidableEq, Repr

/-- The function `context.WithDeadline`: an earlier deadline of the parent is kept. -/
def context.WithDeadline (parent : Context) (d : Int) : Context :=
  match parent.deadline with
  | some cur => if cur < d then parent else { parent with deadline := some d }
  | none => { parent with deadline := some d }

/-- A `url.URL`, reduced to the fields the checker writes and a remainder. -/
structure URL where
  Scheme : String
  Host : String
  Path : String
  deriving DecidableEq, Repr

/-- An `http.Request`. -/
structure Request where
  ctx : Context
  Method : String
  URL : String
  Host : String
  Header : List (String × String)
  deriving DecidableEq, Repr

/-- An `http.Response`, reduced to its status code. -/
structure Response where
  StatusCode : Int
  deriving DecidableEq, Repr

/-- An `http.RoundTripper`, by identity. -/
structure RoundTripper where
  id : Nat
  deriving DecidableEq, Repr

/-- The only redirect policy the constructor installs: the function literal of
lines 80-82, which returns `http.ErrUseLastResponse`. -/
inductive RedirectPolicy
  | UseLastResponse
  deriving DecidableEq, Repr

/-- An `http.Client`. -/
structure Client where
  Transport : RoundTripper
  CheckRedirect : Option RedirectPolicy
  deriving DecidableEq, Repr

/-- The dial options the checker passes to `grpc.DialContext`. -/
inductive DialOption
  | WithInsecureTransportCredentials
  deriving DecidableEq, Repr

/-- A `grpc.ClientConn`, by the address and options it was dialled with. -/
structure ClientConn where
  target : String
  opts : List DialOption
  deriving DecidableEq, Repr

/-- The enumeration `healthpb.HealthCheckResponse_ServingStatus`. -/
inductive ServingStatus
  | UNKNOWN
  | SERVING
  | NOT_SERVING
  | SERVICE_UNKNOWN
  deriving DecidableEq, Repr

/-- The value `healthpb.HealthCheckResponse_SERVING`. -/
def healthpb.HealthCheckResponse_SERVING : ServingStatus := ServingStatus.SERVING

/-- A `healthpb.HealthCheckResponse`. -/
structure HealthCheckResponse where
  Status : ServingStatus
  deriving DecidableEq, Repr

/-- The method `GetStatus` of a health check response. -/
def HealthCheckResponse.GetStatus (resp : HealthCheckResponse) : ServingStatus := resp.Status

/-- The constant `http.StatusOK`. -/
def http.StatusOK : Int := 200

/-- The constant `http.StatusBadRequest`. -/
def http.StatusBadRequest : Int := 400

/-- The constant `modeGRPC` (line 25). -/
def modeGRPC : String := "grpc"

/-- The world outside the package at the time of one probe: the standard
library functions the checker calls, the network, and the clock. -/
structure Env where
  /-- The method `(*url.URL).Parse`. -/
  Parse : URL → String → Except Error URL
  /-- The method `(*url.URL).Hostname`. -/
  Hostname : URL → String
  /-- The method `(*url.URL).Port`. -/
  Port : URL → String
  /-- The method `(*url.URL).String`. -/
  URLString : URL → String
  /-- The function `net.JoinHostPort`. -/
  JoinHostPort : String → String → String
  /-- The function `strconv.Itoa`. -/
  Itoa : Int → String
  /-- The formatting of a duration by the verb `%s`. -/
  DurationString : Int → String
  /-- The function `http.NewRequestWithContext` with `http.NoBody`. -/
  NewRequestWithContext : Context → String → String → Except Error Request
  /-- The method `http.Header.Set`. -/
  HeaderSet : List (String × String) → String → String → List (String × String)
  /-- The method `(*http.Client).Do`, the response body being closed afterwards. -/
  Do : Client → Request → Except Error Response
  /-- The function `grpc.DialContext`. -/
  DialContext : Context → String → List DialOption → Except Error ClientConn
  /-- The call `healthpb.NewHealthClient(conn).Check` with an empty request. -/
  Check : ClientConn → Context → Except Error HealthCheckResponse
  /-- The function `time.Now`. -/
  Now : Int

/-! ## Configuration and checker -/

/-- Modelled from the spec: the record `dynamic.ServerHealthCheck`, whose
declaration (package `pkg/config/dynamic`) is not part of the sources. The
fields are those the checker reads, and the recheck interval that the
specification lists in the configuration (0 disables rechecking). A nil
`FollowRedirects` pointer is `none`. -/
structure dynamic.ServerHealthCheck where
  Scheme : String
  Mode : String
  Path : String
  Method : String
  Status : Int
  Port : Int
  Interval : Int
  Recheck : Int
  Timeout : Int
  Hostname : String
  FollowRedirects : Option Bool
  Headers : List (String × String)
  deriving DecidableEq, Repr

/-- Modelled from the spec: the constants `dynamic.DefaultHealthCheckInterval`
and `dynamic.DefaultHealthCheckTimeout`, the "fixed defaults" of the
specification, whose declaration is not part of the sources; they are taken
as parameters. -/
structure dynamic.Defaults where
  DefaultHealthCheckInterval : Int
  DefaultHealthCheckTimeout : Int
  deriving DecidableEq, Repr

/-- Modelled from the spec: the constant `runtime.StatusUp` of the absent package
`pkg/config/runtime`, the human-readable string "up". -/
def runtime.StatusUp : String := "up"

/-- Modelled from the spec: the constant `runtime.StatusDown` of the absent
package `pkg/config/runtime`, the human-readable string "down". -/
def runtime.StatusDown : String := "down"

/-- A `StatusSetter` (lines 29-31), by identity. -/
structure StatusSetter where
  id : Nat
  deriving DecidableEq, Repr

/-- A `*runtime.ServiceInfo`, by identity. -/
structure ServiceInfo where
  id : Nat
  deriving DecidableEq, Repr

/-- A `metricsHealthCheck` (lines 40-42), by identity. -/
structure metricsHealthCheck where
  id : Nat
  deriving DecidableEq, Repr

/-- The struct `ServiceHealthChecker` (lines 44-58). The map `targets` is the
list of its entries, the keys being distinct. -/
structure ServiceHealthChecker where
  balancer : StatusSetter
  info : ServiceInfo
  config : dynamic.ServerHealthCheck
  interval : Int
  timeout : Int
  recheck : Int
  metrics : metricsHealthCheck
  client : Client
  targets : List (String × URL)
  serviceName : String
  deriving DecidableEq, Repr

/-- The function `NewServiceHealthChecker` (lines 60-96). The composite literal
of lines 85-95 has no entry for the field `recheck`, which therefore holds the
zero value of `time.Duration`. -/
def NewServiceHealthChecker (defaults : dynamic.Defaults) (metrics : metricsHealthCheck)
    (config : dynamic.ServerHealthCheck) (service : StatusSetter) (info : ServiceInfo)
    (transport : RoundTripper) (targets : List (String × URL)) (serviceName : String) :
    ServiceHealthChecker :=
  let interval : Int := config.Interval
  let interval := if interval ≤ 0 then defaults.DefaultHealthCheckInterval else interval
  let timeout : Int := config.Timeout
  let timeout := if timeout ≤ 0 then defaults.DefaultHealthCheckTimeout else timeout
  let client : Client := { Transport := transport, CheckRedirect := none }
  let client :=
    if config.FollowRedirects = some false then
      { client with CheckRedirect := some RedirectPolicy.UseLastResponse }
    else client
  { balancer := service
    info := info
    config := config
    interval := interval
    timeout := timeout
    recheck := 0
    targets := targets
    serviceName := serviceName
    client := client
    metrics := metrics }

/-- The messages `NewServiceHealthChecker` logs at error level (lines 65 and 71). -/
def NewServiceHealthChecker.logged (config : dynamic.ServerHealthCheck) : List String :=
  (if config.Interval ≤ 0 then ["Health check interval smaller than zero"] else []) ++
  (if config.Timeout ≤ 0 then ["Health check timeout smaller than zero"] else [])

/-! ## Probe executors -/

/-- The method `newRequest` (lines 231-259). -/
def ServiceHealthChecker.newRequest (env : Env) (shc : ServiceHealthChecker) (ctx : Context)
    (target : URL) : Except Error Request :=
  match env.Parse target shc.config.Path with
  | Except.error err => Except.error err
  | Except.ok u =>
    let u := if shc.config.Scheme.length > 0 then { u with Scheme := shc.config.Scheme } else u
    let u :=
      if shc.config.Port ≠ 0 then
        { u with Host := env.JoinHostPort (env.Hostname u) (env.Itoa shc.config.Port) }
      else u
    match env.NewRequestWithContext ctx shc.config.Method (env.URLString u) with
    | Except.error err => Except.error (Error.Wrap "failed to create HTTP request: " err)
    | Except.ok req =>
      let req := if shc.config.Hostname ≠ "" then { req with Host := shc.config.Hostname } else req
      Except.ok (shc.config.Headers.foldl
        (fun r kv => { r with Header := env.HeaderSet r.Header kv.1 kv.2 }) req)

/-- The method `checkHealthHTTP` (lines 207-229). -/
def ServiceHealthChecker.checkHealthHTTP (env : Env) (shc : ServiceHealthChecker)
    (ctx : Context) (target : URL) : Option Error :=
  match shc.newRequest env ctx target with
  | Except.error err => some (Error.Wrap "create HTTP request: " err)
  | Except.ok req =>
    match env.Do shc.client req with
    | Except.error err => some (Error.Wrap "HTTP request failed: " err)
    | Except.ok resp =>
      if shc.config.Status = 0 ∧
          (resp.StatusCode < http.StatusOK ∨ resp.StatusCode ≥ http.StatusBadRequest) then
        some (Error.New ("received error status code: " ++ toString resp.StatusCode))
      else if shc.config.Status ≠ 0 ∧ shc.config.Status ≠ resp.StatusCode then
        some (Error.New ("received error status code: " ++ toString resp.StatusCode ++
          " expected status code: " ++ toString shc.config.Status))
      else none

/-- The address `checkHealthGRPC` dials (lines 269-274): the host of the
resolved URL and its port, or the configured port when it is not zero. -/
def ServiceHealthChecker.serverAddr (env : Env) (shc : ServiceHealthChecker) (u : URL) : String :=
  let port := env.Port u
  let port := if shc.config.Port ≠ 0 then env.Itoa shc.config.Port else port
  env.JoinHostPort (env.Hostname u) port

/-- The dial options of `checkHealthGRPC` (lines 276-280). -/
def ServiceHealthChecker.dialOptions (shc : ServiceHealthChecker) : List DialOption :=
  if shc.config.Scheme = "http" ∨ shc.config.Scheme = "h2c" ∨ shc.config.Scheme = "" then
    [DialOption.WithInsecureTransportCredentials]
  else []

/-- The method `checkHealthGRPC` (lines 263-312). -/
def ServiceHealthChecker.checkHealthGRPC (env : Env) (shc : ServiceHealthChecker)
    (ctx : Context) (serverURL : URL) : Option Error :=
  match env.Parse serverURL shc.config.Path with
  | Except.error err => some (Error.Wrap "failed to parse server URL: " err)
  | Except.ok u =>
    let serverAddr := shc.serverAddr env u
    let opts := shc.dialOptions
    match env.DialContext ctx serverAddr opts with
    | Except.error err =>
      if errors.Is err context.DeadlineExceeded then
        some (Error.Wrap ("fail to connect to " ++ serverAddr ++ " within " ++
          env.DurationString shc.config.Timeout ++ ": ") err)
      else some (Error.Wrap ("fail to connect to " ++ serverAddr ++ ": ") err)
    | Except.ok conn =>
      match env.Check conn ctx with
      | Except.error err =>
        match status.FromError err with
        | some codes.Unimplemented =>
          some (Error.Wrap "gRPC server does not implement the health protocol: " err)
        | some codes.DeadlineExceeded => some (Error.Wrap "gRPC health check timeout: " err)
        | some codes.Canceled => some context.Canceled
        | _ => some (Error.Wrap "gRPC health check failed: " err)
      | Except.ok resp =>
        if resp.GetStatus ≠ healthpb.HealthCheckResponse_SERVING then
          some (Error.New ("received gRPC status code: " ++ reprStr resp.GetStatus))
        else none

/-- The method `executeHealthCheck` (lines 195-203). -/
def ServiceHealthChecker.executeHealthCheck (env : Env) (shc : ServiceHealthChecker)
    (ctx : Context) (config : dynamic.ServerHealthCheck) (target : URL) : Option Error :=
  let ctx := context.WithDeadline ctx (env.Now + shc.timeout)
  if config.Mode = modeGRPC then shc.checkHealthGRPC env ctx target
  else shc.checkHealthHTTP env ctx target

/-! ## Reporting step -/

/-- A call received by one of the collaborators of the checker: the status
setter (`SetStatus`), the service info (`UpdateServerStatus`), the gauge
`ServiceServerUpGauge()` (`With(labelValues...).Set(value)`; the values
`float64(0)` and `float64(1)` are the integers 0 and 1), or the logger at
warning level (lines 171-174). -/
inductive Event
  | SetStatus (childName : String) (up : Bool)
  | UpdateServerStatus (server : String) (status : String)
  | GaugeSet (labelValues : List String) (value : Int)
  | Warn (targetURL : String) (err : Error)
  deriving DecidableEq, Repr

/-- The method `targetHealthCheck` (lines 159-193): the result and the calls
made, appended to `log`. A name that is not a key of `targets` yields a nil
target, whose dereference panics: `none`. -/
def ServiceHealthChecker.targetHealthCheck (env : Env) (shc : ServiceHealthChecker)
    (ctx : Context) (proxyName : String) (log : List Event) : Option (Bool × List Event) :=
  match shc.targets.lookup proxyName with
  | none => none
  | some target =>
    let err := shc.executeHealthCheck env ctx shc.config target
    if (match err with
        | some e => errors.Is e context.Canceled
        | none => false) then
      some (false, log)
    else
      let up : Bool := err.isNone
      let serverUpMetricValue : Int := if err.isNone then 1 else 0
      let log :=
        match err with
        | some e => log ++ [Event.Warn (env.URLString target) e]
        | none => log
      let log := log ++ [Event.SetStatus proxyName up]
      let statusStr := if up then runtime.StatusUp else runtime.StatusDown
      let log := log ++ [Event.UpdateServerStatus (env.URLString target) statusStr]
      let log := log ++
        [Event.GaugeSet ["service", shc.serviceName, "url", env.URLString target]
          serverUpMetricValue]
      some (up, log)

/-! ## Goroutines

`Launch` starts one goroutine per target, running `LaunchTargetHealthCheck`
(the monitor of the target), which starts a further goroutine (a recheck
loop, lines 132-153) after a failed probe when `shc.recheck` is not zero.
The goroutines are interleaved: a step of the system is a step of one
goroutine from one communication point (a `select`, a channel send, the
return of a probe, a deferred function) to the next. -/

/-- Where the goroutine of `LaunchTargetHealthCheck` stands: in the `select`
of line 118; blocked in the send of line 126; inside the call of
`targetHealthCheck` of line 129; or returned, the deferred function of lines
112-115 (closing `endRecheck`) having run. -/
inductive MonitorPC
  | select
  | sendEnd (tick : Int)
  | probe
  | done
  deriving DecidableEq, Repr

/-- Where a recheck goroutine (lines 132-153) stands: in the `select` of line
139; inside the call of `targetHealthCheck` of line 146; past a `return` of
the loop, the deferred function of lines 134-137 not having run yet; or
ended. -/
inductive RecheckPC
  | select
  | probe
  | returning
  | exited
  deriving DecidableEq, Repr

/-- The variables of one call of `LaunchTargetHealthCheck`: the position of
its goroutine, the variable `recheckActive` (which the recheck goroutines
share), and the recheck goroutines it has started, in the order of their
start. -/
structure Monitor where
  pc : MonitorPC
  recheckActive : Bool
  rechecks : List RecheckPC
  deriving DecidableEq, Repr

/-- The kind of a probe: called from line 129 or from line 146. -/
inductive ProbeKind
  | interval
  | recheck
  deriving DecidableEq, Repr

/-- What the goroutines of one `Launch` share: the context, the channel
`ticker.C` (of capacity one), the counter of the wait group, the calls
received by the collaborators, and (as a record for the proofs) the calls of
`targetHealthCheck` begun so far, with the target and the kind. -/
structure World where
  ctx : Context
  tickerC : Option Int
  wg : Nat
  events : List Event
  probes : List (String × ProbeKind)
  deriving DecidableEq, Repr

/-- The steps of the goroutines of one monitor. -/
inductive MonitorAction
  /-- The monitor takes `case <-ctx.Done()` (line 119) and returns. -/
  | ctxDone
  /-- The monitor takes `case tick := <-intervalTick` (line 122) and tests
  `recheckActive` (line 125). -/
  | recvTick
  /-- The send of line 126 meets the receive of line 142 in recheck goroutine
  `i`; the monitor goes on to line 127 and calls `targetHealthCheck`. -/
  | handoff (i : Nat)
  /-- The call of line 129 returns, in the world `env`; lines 130-154. -/
  | probeEnd (env : Env)
  /-- Recheck goroutine `i` takes `case <-recheckTicker.C` (line 145). -/
  | recheckTick (i : Nat)
  /-- The call of line 146 returns in recheck goroutine `i`; lines 147-150. -/
  | recheckProbeEnd (i : Nat) (env : Env)
  /-- Recheck goroutine `i` takes `case <-ctx.Done()` (line 140). -/
  | recheckCtxDone (i : Nat)
  /-- Recheck goroutine `i` receives from the closed channel `endRecheck`. -/
  | recheckEndClosed (i : Nat)
  /-- The deferred function of lines 134-137 runs in recheck goroutine `i`. -/
  | recheckDefer (i : Nat)

/-- The monitor of a target at the start of `LaunchTargetHealthCheck` (lines 110-111). -/
def Monitor.init : Monitor := { pc := MonitorPC.select, recheckActive := false, rechecks := [] }

/-- One step of the goroutines of the monitor of `proxyName` (lines 109-157);
`none` when the step is not enabled, or when the probe panics. -/
def ServiceHealthChecker.LaunchTargetHealthCheck (shc : ServiceHealthChecker)
    (proxyName : String) (w : World) (m : Monitor) : MonitorAction → Option (World × Monitor)
  | MonitorAction.ctxDone =>
    if m.pc = MonitorPC.select ∧ w.ctx.done = true then
      some ({ w with wg := w.wg - 1 }, { m with pc := MonitorPC.done })
    else none
  | MonitorAction.recvTick =>
    match w.tickerC with
    | none => none
    | some tick =>
      if m.pc = MonitorPC.select then
        if m.recheckActive = true then
          some ({ w with tickerC := none }, { m with pc := MonitorPC.sendEnd tick })
        else
          some ({ w with tickerC := none,
                         probes := w.probes ++ [(proxyName, ProbeKind.interval)] },
                { m with pc := MonitorPC.probe })
      else none
  | MonitorAction.handoff i =>
    match m.pc with
    | MonitorPC.sendEnd _ =>
      if m.rechecks.get? i = some RecheckPC.select then
        some ({ w with probes := w.probes ++ [(proxyName, ProbeKind.interval)] },
              { pc := MonitorPC.probe, recheckActive := false,
                rechecks := m.rechecks.set i RecheckPC.returning })
      else none
    | _ => none
  | MonitorAction.probeEnd env =>
    if m.pc = MonitorPC.probe then
      match shc.targetHealthCheck env w.ctx proxyName w.events with
      | none => none
      | some (up, events) =>
        if up = false ∧ shc.recheck ≠ 0 then
          some ({ w with events := events },
                { pc := MonitorPC.select, recheckActive := true,
                  rechecks := m.rechecks ++ [RecheckPC.select] })
        else some ({ w with events := events }, { m with pc := MonitorPC.select })
    else none
  | MonitorAction.recheckTick i =>
    if m.rechecks.get? i = some RecheckPC.select then
      some ({ w with probes := w.probes ++ [(proxyName, ProbeKind.recheck)] },
            { m with rechecks := m.rechecks.set i RecheckPC.probe })
    else none
  | MonitorAction.recheckProbeEnd i env =>
    if m.rechecks.get? i = some RecheckPC.probe then
      match shc.targetHealthCheck env w.ctx proxyName w.events with
      | none => none
      | some (up, events) =>
        if up = true then
          some ({ w with events := events },
                { m with rechecks := m.rechecks.set i RecheckPC.returning })
        else
          some ({ w with events := events },
                { m with rechecks := m.rechecks.set i RecheckPC.select })
    else none
  | MonitorAction.recheckCtxDone i =>
    if m.rechecks.get? i = some RecheckPC.select ∧ w.ctx.done = true then
      some (w, { m with rechecks := m.rechecks.set i RecheckPC.returning })
    else none
  | MonitorAction.recheckEndClosed i =>
    if m.rechecks.get? i = some RecheckPC.select ∧ m.pc = MonitorPC.done then
      some (w, { m with rechecks := m.rechecks.set i RecheckPC.returning })
    else none
  | MonitorAction.recheckDefer i =>
    if m.rechecks.get? i = some RecheckPC.returning then
      some (w, { m with recheckActive := false,
                        rechecks := m.rechecks.set i RecheckPC.exited })
    else none

/-- The goroutines of one `Launch`: what they share, and the monitor of each target. -/
structure State where
  world : World
  monitors : List (String × Monitor)
  deriving DecidableEq, Repr

/-- The steps of the system. -/
inductive Action
  /-- The timer of `ticker` fires at time `t`: the time is sent on `ticker.C`
  when the channel is empty and dropped otherwise. -/
  | tick (t : Int)
  /-- The owner of the context cancels it. -/
  | cancel
  /-- A step of the goroutines of the monitor of `proxyName`. -/
  | monitor (proxyName : String) (a : MonitorAction)

/-- The method `Launch` (lines 98-107) up to `wg.Wait()`: the ticker is
created, the wait group counts the targets, and one monitor is started for
each target. -/
def ServiceHealthChecker.Launch (shc : ServiceHealthChecker) (ctx : Context) : State :=
  { world := { ctx := ctx, tickerC := none, wg := shc.targets.length, events := [], probes := [] }
    monitors := shc.targets.map (fun p => (p.1, Monitor.init)) }

/-- The call `wg.Wait()` of line 106 has returned, and with it `Launch`. -/
def State.returned (s : State) : Bool := s.world.wg = 0

/-- One step of the system; `none` when the step is not enabled. -/
def step (shc : ServiceHealthChecker) (s : State) : Action → Option State
  | Action.tick t =>
    match s.world.tickerC with
    | none => some { s with world := { s.world with tickerC := some t } }
    | some _ => some s
  | Action.cancel => some { s with world := { s.world with ctx := { s.world.ctx with done := true } } }
  | Action.monitor proxyName a =>
    match s.monitors.lookup proxyName with
    | none => none
    | some m =>
      match shc.LaunchTargetHealthCheck proxyName s.world m a with
      | none => none
      | some (w, m') =>
        some { world := w
               monitors := s.monitors.map (fun p => if p.1 = proxyName then (p.1, m') else p) }

/-- The steps of a schedule, one after the other. -/
def run (shc : ServiceHealthChecker) (s : State) : List Action → Option State
  | [] => some s
  | a :: rest =>
    match step shc s a with
    | none => none
    | some s' => run shc s' rest

/-- The number of probes of a monitor that are in progress: calls of
`targetHealthCheck` that have begun and not returned. -/
def Monitor.inFlight (m : Monitor) : Nat :=
  (if m.pc = MonitorPC.probe then 1 else 0) + m.rechecks.count RecheckPC.probe

/-- The number of recheck goroutines of a monitor that are inside their loop. -/
def Monitor.running (m : Monitor) : Nat :=
  m.rechecks.count RecheckPC.select + m.rechecks.count RecheckPC.probe

/-! ## Sample worlds and checkers -/

/-- A world in which URLs are resolved and printed naively, every request and
every dial succeeds, the server answers an HTTP request with `http` and the
health RPC with `rpc`. -/
def Env.answering (http : Except Error Response) (rpc : Except Error HealthCheckResponse) : Env :=
  { Parse := fun u ref => Except.ok { u with Path := ref }
    Hostname := fun u => u.Host
    Port := fun _ => ""
    URLString := fun u => u.Scheme ++ "://" ++ u.Host ++ u.Path
    JoinHostPort := fun host port => host ++ ":" ++ port
    Itoa := fun n => toString n
    DurationString := fun d => toString d
    NewRequestWithContext := fun ctx method url =>
      Except.ok { ctx := ctx, Method := method, URL := url, Host := "", Header := [] }
    HeaderSet := fun h k v => h ++ [(k, v)]
    Do := fun _ _ => http
    DialContext := fun _ addr opts => Except.ok { target := addr, opts := opts }
    Check := fun _ _ => rpc
    Now := 0 }

/-- A world whose server answers an HTTP request with status `code`. -/
def Env.httpStatus (code : Int) : Env :=
  Env.answering (Except.ok { StatusCode := code }) (Except.ok { Status := ServingStatus.SERVING })

/-- A world whose server answers the health RPC with the error `err`. -/
def Env.rpcError (err : Error) : Env :=
  Env.answering (Except.ok { StatusCode := 200 }) (Except.error err)

/-- A world whose server answers the health RPC with the status `st`. -/
def Env.rpcStatus (st : ServingStatus) : Env :=
  Env.answering (Except.ok { StatusCode := 200 }) (Except.ok { Status := st })

/-- A configuration: a check of `/health` in the mode `mode`, expecting the
status `status`, with the recheck interval `recheck`. -/
def sampleConfig (mode : String) (status recheck : Int) : dynamic.ServerHealthCheck :=
  { Scheme := "", Mode := mode, Path := "/health", Method := "GET", Status := status, Port := 0,
    Interval := 30, Recheck := recheck, Timeout := 5, Hostname := "", FollowRedirects := none,
    Headers := [] }

/-- Sample values of the default interval and timeout. -/
def sampleDefaults : dynamic.Defaults :=
  { DefaultHealthCheckInterval := 30, DefaultHealthCheckTimeout := 5 }

/-- A background context, not cancelled and without deadline. -/
def context.Background : Context := { done := false, deadline := none }

/-- The targets `a` and `b`. -/
def sampleTargets : List (String × URL) :=
  [("a", { Scheme := "http", Host := "10.0.0.1", Path := "" }),
   ("b", { Scheme := "http", Host := "10.0.0.2", Path := "" })]

/-- A checker of the service `svc` as the constructor builds it. -/
def sampleChecker (mode : String) (status recheck : Int) (targets : List (String × URL)) :
    ServiceHealthChecker :=
  NewServiceHealthChecker sampleDefaults { id := 0 } (sampleConfig mode status recheck) { id := 0 }
    { id := 0 } { id := 0 } targets "svc"

/-- A checker whose field `recheck` holds `recheck`. -/
def sampleRechecker (mode : String) (recheck : Int) (targets : List (String × URL)) :
    ServiceHealthChecker :=
  { sampleChecker mode 0 recheck targets with recheck := recheck }

/-! ## Sample schedules -/

/-- The target `a` alone. -/
def oneTarget : List (String × URL) :=
  [("a", { Scheme := "http", Host := "10.0.0.1", Path := "" })]

/-- A world whose server answers the health RPC with a gRPC status error of code Canceled. -/
def Env.rpcCanceled : Env := Env.rpcError (Error.Status codes.Canceled "canceled")

/-- The first interval tick, received by the monitor of `a`, whose probe ends in
the world `env`. -/
def firstTick (env : Env) : List Action :=
  [Action.tick 1, Action.monitor "a" MonitorAction.recvTick,
   Action.monitor "a" (MonitorAction.probeEnd env)]

/-- A schedule of the monitor of `a` against a server answering 503. The first
interval probe fails and recheck goroutine 0 is started. On the second tick
the monitor hands `endRecheck` to goroutine 0, probes, fails and starts
recheck goroutine 1; only then does the deferred function of goroutine 0 run.
On the third tick the monitor begins its probe at once, and goroutine 1 takes
a tick of its own ticker. -/
def raceSchedule : List Action :=
  firstTick (Env.httpStatus 503) ++
  [Action.tick 2, Action.monitor "a" MonitorAction.recvTick,
   Action.monitor "a" (MonitorAction.handoff 0),
   Action.monitor "a" (MonitorAction.probeEnd (Env.httpStatus 503)),
   Action.monitor "a" (MonitorAction.recheckDefer 0),
   Action.tick 3, Action.monitor "a" MonitorAction.recvTick,
   Action.monitor "a" (MonitorAction.recheckTick 1)]

/-! ## Measures and invariants of the system -/

/-- The invariant of a system whose checker has the field `recheck` at zero:
no monitor has `recheckActive` set or a recheck goroutine, and every probe
begun was an interval probe. -/
def State.noRecheck (s : State) : Prop :=
  (∀ p ∈ s.monitors, p.2.recheckActive = false ∧ p.2.rechecks = []) ∧
  ∀ q ∈ s.world.probes, q.2 = ProbeKind.interval

/-- The number of times buffered in `ticker.C`. -/
def World.buffered (w : World) : Nat :=
  match w.tickerC with
  | some _ => 1
  | none => 0

/-- The number of times the timer of `ticker` fires in a schedule. -/
def ticksFired : List Action → Nat
  | [] => 0
  | Action.tick _ :: rest => ticksFired rest + 1
  | _ :: rest => ticksFired rest

/-! ## The probe executors -/

/-- C1: when the request is built (`newRequest` returns `req`) and sent
(`Do` returns `resp`) without error, `checkHealthHTTP` returns nil exactly
when the configured status is 0 and the response status lies in [200, 400),
or the configured status is not 0 and the response status equals it; in every
other case it returns an error. -/
theorem checkHealthHTTP_status_rule (env : Env) (shc : ServiceHealthChecker) (ctx : Context)
    (target : URL) (req : Request) (resp : Response)
    (hreq : shc.newRequest env ctx target = Except.ok req)
    (hdo : env.Do shc.client req = Except.ok resp) :
    (shc.checkHealthHTTP env ctx target = none ↔
      ((shc.config.Status = 0 ∧ 200 ≤ resp.StatusCode ∧ resp.StatusCode < 400) ∨
       (shc.config.Status ≠ 0 ∧ resp.StatusCode = shc.config.Status))) ∧
    (¬ ((shc.config.Status = 0 ∧ 200 ≤ resp.StatusCode ∧ resp.StatusCode < 400) ∨
       (shc.config.Status ≠ 0 ∧ resp.StatusCode = shc.config.Status)) →
      ∃ err, shc.checkHealthHTTP env ctx target = some err) := by
  have key : shc.checkHealthHTTP env ctx target = none ↔
      ((shc.config.Status = 0 ∧ 200 ≤ resp.StatusCode ∧ resp.StatusCode < 400) ∨
       (shc.config.Status ≠ 0 ∧ resp.StatusCode = shc.config.Status)) := by
    unfold ServiceHealthChecker.checkHealthHTTP
    simp only [hreq, hdo, http.StatusOK, http.StatusBadRequest]
    by_cases h0 : shc.config.Status = 0
    · by_cases hr : resp.StatusCode < 200 ∨ resp.StatusCode ≥ 400
      · rw [if_pos ⟨h0, hr⟩]
        simp only [reduceCtorEq, false_iff]
        omega
      · rw [if_neg (fun h => hr h.2), if_neg (fun h => h.1 h0)]
        simp only [true_iff]
        omega
    · by_cases hs : shc.config.Status = resp.StatusCode
      · rw [if_neg (fun h => h0 h.1), if_neg (fun h => h.2 hs)]
        simp only [true_iff]
        omega
      · rw [if_neg (fun h => h0 h.1), if_pos ⟨h0, hs⟩]
        simp only [reduceCtorEq, false_iff]
        omega
  refine ⟨key, fun hn => ?_⟩
  cases hres : shc.checkHealthHTTP env ctx target with
  | none => exact absurd (key.mp hres) hn
  | some err => exact ⟨err, rfl⟩

/-- The status rule at the configured status 418 and a server answering 418. -/
theorem checkHealthHTTP_status_rule_witness :
    ((sampleChecker "" 418 0 sampleTargets).checkHealthHTTP (Env.httpStatus 418)
        context.Background { Scheme := "http", Host := "10.0.0.1", Path := "" } = none ↔
      (((sampleChecker "" 418 0 sampleTargets).config.Status = 0 ∧ (200 : Int) ≤ 418 ∧ (418 : Int) < 400) ∨
       ((sampleChecker "" 418 0 sampleTargets).config.Status ≠ 0 ∧
        (418 : Int) = (sampleChecker "" 418 0 sampleTargets).config.Status))) :=
  (checkHealthHTTP_status_rule (Env.httpStatus 418) (sampleChecker "" 418 0 sampleTargets)
    context.Background { Scheme := "http", Host := "10.0.0.1", Path := "" }
    { ctx := context.Background, Method := "GET", URL := "http://10.0.0.1/health", Host := "",
      Header := [] }
    { StatusCode := 418 } (by rfl) (by rfl)).1

/-- C6: once the server URL is resolved and the connection established,
`checkHealthGRPC` returns nil exactly when the `Check` RPC returns without
error and with the status SERVING; an RPC error of code Unimplemented yields
the error "gRPC server does not implement the health protocol", of code
DeadlineExceeded the error "gRPC health check timeout", of code Canceled
exactly `context.Canceled`; every other RPC error yields the error "gRPC
health check failed" and every other status the error "received gRPC status
code", neither of which is `context.Canceled` (nor, the RPC error being a
gRPC status error, wraps it). -/
theorem checkHealthGRPC_classification (env : Env) (shc : ServiceHealthChecker) (ctx : Context)
    (serverURL u : URL) (conn : ClientConn)
    (hparse : env.Parse serverURL shc.config.Path = Except.ok u)
    (hdial : env.DialContext ctx (shc.serverAddr env u) shc.dialOptions = Except.ok conn) :
    (shc.checkHealthGRPC env ctx serverURL = none ↔
      ∃ resp, env.Check conn ctx = Except.ok resp ∧
        resp.GetStatus = healthpb.HealthCheckResponse_SERVING) ∧
    (∀ err, env.Check conn ctx = Except.error err →
      (status.FromError err = some codes.Unimplemented →
        shc.checkHealthGRPC env ctx serverURL =
          some (Error.Wrap "gRPC server does not implement the health protocol: " err)) ∧
      (status.FromError err = some codes.DeadlineExceeded →
        shc.checkHealthGRPC env ctx serverURL =
          some (Error.Wrap "gRPC health check timeout: " err)) ∧
      (status.FromError err = some codes.Canceled →
        shc.checkHealthGRPC env ctx serverURL = some context.Canceled) ∧
      (status.FromError err ≠ some codes.Unimplemented →
        status.FromError err ≠ some codes.DeadlineExceeded →
        status.FromError err ≠ some codes.Canceled →
        shc.checkHealthGRPC env ctx serverURL =
          some (Error.Wrap "gRPC health check failed: " err) ∧
        shc.checkHealthGRPC env ctx serverURL ≠ some context.Canceled ∧
        ∀ code msg, err = Error.Status code msg →
          errors.Is (Error.Wrap "gRPC health check failed: " err) context.Canceled = false)) ∧
    (∀ resp, env.Check conn ctx = Except.ok resp →
      resp.GetStatus ≠ healthpb.HealthCheckResponse_SERVING →
      shc.checkHealthGRPC env ctx serverURL =
        some (Error.New ("received gRPC status code: " ++ reprStr resp.GetStatus)) ∧
      shc.checkHealthGRPC env ctx serverURL ≠ some context.Canceled ∧
      errors.Is (Error.New ("received gRPC status code: " ++ reprStr resp.GetStatus))
        context.Canceled = false) := by
  have hunf : shc.checkHealthGRPC env ctx serverURL =
      match env.Check conn ctx with
      | Except.error err =>
        match status.FromError err with
        | some codes.Unimplemented =>
          some (Error.Wrap "gRPC server does not implement the health protocol: " err)
        | some codes.DeadlineExceeded => some (Error.Wrap "gRPC health check timeout: " err)
        | some codes.Canceled => some context.Canceled
        | _ => some (Error.Wrap "gRPC health check failed: " err)
      | Except.ok resp =>
        if resp.GetStatus ≠ healthpb.HealthCheckResponse_SERVING then
          some (Error.New ("received gRPC status code: " ++ reprStr resp.GetStatus))
        else none := by
    unfold ServiceHealthChecker.checkHealthGRPC
    simp only [hparse, hdial]
  refine ⟨?_, ?_, ?_⟩
  · rw [hunf]
    cases hc : env.Check conn ctx with
    | error err =>
      simp only [reduceCtorEq, false_and, exists_false, iff_false]
      split <;> simp
    | ok resp =>
      by_cases hs : resp.GetStatus = healthpb.HealthCheckResponse_SERVING
      · simp [hs]
      · simp [hs]
  · intro err hc
    rw [hunf, hc]
    dsimp only
    refine ⟨?_, ?_, ?_, ?_⟩
    · intro h
      simp only [h]
    · intro h
      simp only [h]
    · intro h
      simp only [h]
    · intro h1 h2 h3
      have hres : (match status.FromError err with
          | some codes.Unimplemented =>
            some (Error.Wrap "gRPC server does not implement the health protocol: " err)
          | some codes.DeadlineExceeded => some (Error.Wrap "gRPC health check timeout: " err)
          | some codes.Canceled => some context.Canceled
          | _ => some (Error.Wrap "gRPC health check failed: " err)) =
          some (Error.Wrap "gRPC health check failed: " err) := by
        split
        · exact absurd (by assumption) h1
        · exact absurd (by assumption) h2
        · exact absurd (by assumption) h3
        · rfl
      refine ⟨hres, ?_, ?_⟩
      · rw [hres]
        simp [context.Canceled]
      · intro code msg he
        subst he
        simp [errors.Is, context.Canceled]
  · intro resp hc hs
    rw [hunf, hc]
    dsimp only
    simp only [hs, ne_eq, not_false_eq_true, if_true]
    refine ⟨trivial, ?_, ?_⟩
    · simp [context.Canceled]
    · simp [errors.Is, context.Canceled]

/-- The classification at a server whose health RPC fails with the code Unimplemented. -/
theorem checkHealthGRPC_classification_witness :
    (sampleChecker "grpc" 0 0 sampleTargets).checkHealthGRPC
        (Env.rpcError (Error.Status codes.Unimplemented "unknown service"))
        context.Background { Scheme := "http", Host := "10.0.0.1", Path := "" } =
      some (Error.Wrap "gRPC server does not implement the health protocol: "
        (Error.Status codes.Unimplemented "unknown service")) :=
  ((checkHealthGRPC_classification
      (Env.rpcError (Error.Status codes.Unimplemented "unknown service"))
      (sampleChecker "grpc" 0 0 sampleTargets) context.Background
      { Scheme := "http", Host := "10.0.0.1", Path := "" }
      { Scheme := "http", Host := "10.0.0.1", Path := "/health" }
      { target := "10.0.0.1:", opts := [DialOption.WithInsecureTransportCredentials] }
      (by rfl) (by rfl)).2.1
    (Error.Status codes.Unimplemented "unknown service") (by rfl)).1 (by rfl)

/-! ## The constructor -/

/-- C5: the checker built by `NewServiceHealthChecker` has the configured
interval when that is positive and the default interval otherwise, the
configured timeout when that is positive and the default timeout otherwise,
and stores the configuration record it was given, unchanged. -/
theorem NewServiceHealthChecker_defaults (defaults : dynamic.Defaults)
    (metrics : metricsHealthCheck) (config : dynamic.ServerHealthCheck) (service : StatusSetter)
    (info : ServiceInfo) (transport : RoundTripper) (targets : List (String × URL))
    (serviceName : String) :
    (NewServiceHealthChecker defaults metrics config service info transport targets
        serviceName).interval =
      (if config.Interval > 0 then config.Interval else defaults.DefaultHealthCheckInterval) ∧
    (NewServiceHealthChecker defaults metrics config service info transport targets
        serviceName).timeout =
      (if config.Timeout > 0 then config.Timeout else defaults.DefaultHealthCheckTimeout) ∧
    (NewServiceHealthChecker defaults metrics config service info transport targets
        serviceName).config = config := by
  refine ⟨?_, ?_, rfl⟩
  · show (if config.Interval ≤ 0 then defaults.DefaultHealthCheckInterval else config.Interval) = _
    by_cases h : config.Interval ≤ 0
    · rw [if_pos h, if_neg (by omega)]
    · rw [if_neg h, if_pos (by omega)]
  · show (if config.Timeout ≤ 0 then defaults.DefaultHealthCheckTimeout else config.Timeout) = _
    by_cases h : config.Timeout ≤ 0
    · rw [if_pos h, if_neg (by omega)]
    · rw [if_neg h, if_pos (by omega)]

/-! ## The reporting step -/

/-- The reporting step after a probe that ended with an error which is or wraps
`context.Canceled`: nothing is reported and the result is false. -/
theorem targetHealthCheck_of_canceled (env : Env) (shc : ServiceHealthChecker) (ctx : Context)
    (proxyName : String) (target : URL) (log : List Event) (err : Error)
    (htarget : shc.targets.lookup proxyName = some target)
    (herr : shc.executeHealthCheck env ctx shc.config target = some err)
    (hcancel : errors.Is err context.Canceled = true) :
    shc.targetHealthCheck env ctx proxyName log = some (false, log) := by
  unfold ServiceHealthChecker.targetHealthCheck
  simp only [htarget, herr, hcancel, if_true]

/-- The reporting step after a probe that ended with another error: a warning is
logged and the target is reported down. -/
theorem targetHealthCheck_of_failure (env : Env) (shc : ServiceHealthChecker) (ctx : Context)
    (proxyName : String) (target : URL) (log : List Event) (err : Error)
    (htarget : shc.targets.lookup proxyName = some target)
    (herr : shc.executeHealthCheck env ctx shc.config target = some err)
    (hcancel : errors.Is err context.Canceled = false) :
    shc.targetHealthCheck env ctx proxyName log =
      some (false, log ++ [Event.Warn (env.URLString target) err] ++
        [Event.SetStatus proxyName false,
         Event.UpdateServerStatus (env.URLString target) runtime.StatusDown,
         Event.GaugeSet ["service", shc.serviceName, "url", env.URLString target] 0]) := by
  unfold ServiceHealthChecker.targetHealthCheck
  simp [htarget, herr, hcancel]

/-- The reporting step after a probe that ended without error: the target is
reported up. -/
theorem targetHealthCheck_of_success (env : Env) (shc : ServiceHealthChecker) (ctx : Context)
    (proxyName : String) (target : URL) (log : List Event)
    (htarget : shc.targets.lookup proxyName = some target)
    (hok : shc.executeHealthCheck env ctx shc.config target = none) :
    shc.targetHealthCheck env ctx proxyName log =
      some (true, log ++
        [Event.SetStatus proxyName true,
         Event.UpdateServerStatus (env.URLString target) runtime.StatusUp,
         Event.GaugeSet ["service", shc.serviceName, "url", env.URLString target] 1]) := by
  unfold ServiceHealthChecker.targetHealthCheck
  simp [htarget, hok]

/-- C2: for a target of the checker and a probe that ends without error or with
an error that does not wrap `context.Canceled`, `targetHealthCheck` returns
`up` (true exactly when the probe returned no error) and makes, besides the
warning it logs for an error, exactly the calls `SetStatus(proxyName, up)`,
`UpdateServerStatus(target.String(), s)` with `s` "up" when up and "down"
otherwise, and the gauge `Set(v)` labelled with the service name and
`target.String()`, with `v` 1 when up and 0 otherwise. -/
theorem targetHealthCheck_reports (env : Env) (shc : ServiceHealthChecker) (ctx : Context)
    (proxyName : String) (target : URL) (log : List Event)
    (htarget : shc.targets.lookup proxyName = some target)
    (hprobe : ∀ err, shc.executeHealthCheck env ctx shc.config target = some err →
      errors.Is err context.Canceled = false) :
    shc.targetHealthCheck env ctx proxyName log =
      some ((shc.executeHealthCheck env ctx shc.config target).isNone,
        log ++
        (match shc.executeHealthCheck env ctx shc.config target with
         | some err => [Event.Warn (env.URLString target) err]
         | none => []) ++
        [Event.SetStatus proxyName (shc.executeHealthCheck env ctx shc.config target).isNone,
         Event.UpdateServerStatus (env.URLString target)
           (if (shc.executeHealthCheck env ctx shc.config target).isNone then "up" else "down"),
         Event.GaugeSet ["service", shc.serviceName, "url", env.URLString target]
           (if (shc.executeHealthCheck env ctx shc.config target).isNone then 1 else 0)]) := by
  cases hres : shc.executeHealthCheck env ctx shc.config target with
  | none =>
    rw [targetHealthCheck_of_success env shc ctx proxyName target log htarget hres]
    simp [runtime.StatusUp]
  | some err =>
    rw [targetHealthCheck_of_failure env shc ctx proxyName target log err htarget hres
      (hprobe err hres)]
    simp [runtime.StatusDown]

/-- The reporting step at the configured status 0 and a server answering 503:
the target is reported down, the gauge is set to 0. -/
theorem targetHealthCheck_reports_witness :
    (sampleChecker "" 0 0 sampleTargets).targetHealthCheck (Env.httpStatus 503)
        context.Background "a" [] =
      some (false,
        [Event.Warn "http://10.0.0.1" (Error.New "received error status code: 503"),
         Event.SetStatus "a" false,
         Event.UpdateServerStatus "http://10.0.0.1" "down",
         Event.GaugeSet ["service", "svc", "url", "http://10.0.0.1"] 0]) :=
  targetHealthCheck_reports (Env.httpStatus 503) (sampleChecker "" 0 0 sampleTargets)
    context.Background "a" { Scheme := "http", Host := "10.0.0.1", Path := "" } [] (by rfl)
    (by intro err herr
        have h : err = Error.New "received error status code: 503" :=
          (Option.some.inj herr).symm
        rw [h]
        rfl)

/-- C3: for a target of the checker and a probe whose error is or wraps
`context.Canceled`, `targetHealthCheck` returns false and makes no call at
all: the calls received by the status setter, the service info and the gauge
are those received before. -/
theorem targetHealthCheck_inconclusive (env : Env) (shc : ServiceHealthChecker) (ctx : Context)
    (proxyName : String) (target : URL) (log : List Event) (err : Error)
    (htarget : shc.targets.lookup proxyName = some target)
    (herr : shc.executeHealthCheck env ctx shc.config target = some err)
    (hcancel : errors.Is err context.Canceled = true) :
    shc.targetHealthCheck env ctx proxyName log = some (false, log) := by
  unfold ServiceHealthChecker.targetHealthCheck
  simp only [htarget, herr, hcancel, if_true]

/-- The reporting step at a health RPC that fails with the code Canceled, after
an earlier report: nothing is added. -/
theorem targetHealthCheck_inconclusive_witness :
    (sampleChecker "grpc" 0 0 sampleTargets).targetHealthCheck
        (Env.rpcError (Error.Status codes.Canceled "canceled")) context.Background "a"
        [Event.SetStatus "a" true] =
      some (false, [Event.SetStatus "a" true]) :=
  targetHealthCheck_inconclusive (Env.rpcError (Error.Status codes.Canceled "canceled"))
    (sampleChecker "grpc" 0 0 sampleTargets) context.Background "a"
    { Scheme := "http", Host := "10.0.0.1", Path := "" } [Event.SetStatus "a" true]
    context.Canceled (by rfl) (by rfl) (by rfl)

/-! ## The goroutines -/

/-- A key found by `lookup` is the key of an entry of the list. -/
theorem mem_of_lookup_eq_some {β : Type} (l : List (String × β)) (k : String) (v : β)
    (h : l.lookup k = some v) : (k, v) ∈ l := by
  induction l with
  | nil => simp at h
  | cons p rest ih =>
    obtain ⟨k', v'⟩ := p
    rw [List.lookup_cons] at h
    by_cases hk : k = k'
    · subst hk
      simp at h
      subst h
      exact List.mem_cons_self _ _
    · have hb : (k == k') = false := by simpa using hk
      rw [hb] at h
      exact List.mem_cons_of_mem _ (ih h)

/-- A step of a monitor, seen from the system: the monitor found under the name
takes the step, and the entries under that name are replaced. -/
theorem step_monitor_eq_some (shc : ServiceHealthChecker) (s s' : State) (proxyName : String)
    (a : MonitorAction) (h : step shc s (Action.monitor proxyName a) = some s') :
    ∃ m w m', s.monitors.lookup proxyName = some m ∧
      shc.LaunchTargetHealthCheck proxyName s.world m a = some (w, m') ∧
      s'.world = w ∧
      s'.monitors = s.monitors.map (fun p => if p.1 = proxyName then (p.1, m') else p) := by
  unfold step at h
  cases hl : s.monitors.lookup proxyName with
  | none => simp [hl] at h
  | some m =>
    cases hm : shc.LaunchTargetHealthCheck proxyName s.world m a with
    | none => simp [hl, hm] at h
    | some r =>
      obtain ⟨w, m'⟩ := r
      simp only [hl, hm, Option.some.injEq] at h
      subst h
      exact ⟨m, w, m', rfl, hm, rfl, rfl⟩

/-- With the field `recheck` at zero, a monitor without recheck goroutine stays
without one and its `recheckActive` stays false; a step of it either begins
no probe and leaves `ticker.C` as it is, or takes the time buffered in
`ticker.C` and begins one interval probe. -/
theorem LaunchTargetHealthCheck_no_recheck (shc : ServiceHealthChecker) (proxyName : String)
    (w w' : World) (m m' : Monitor) (a : MonitorAction) (hzero : shc.recheck = 0)
    (hactive : m.recheckActive = false) (hnone : m.rechecks = [])
    (h : shc.LaunchTargetHealthCheck proxyName w m a = some (w', m')) :
    m'.recheckActive = false ∧ m'.rechecks = [] ∧
      ((w'.probes = w.probes ∧ w'.tickerC = w.tickerC) ∨
       (∃ t, w.tickerC = some t ∧ w'.tickerC = none ∧
          w'.probes = w.probes ++ [(proxyName, ProbeKind.interval)])) := by
  obtain ⟨pc, active, rechecks⟩ := m
  simp only at hactive hnone
  subst hactive hnone
  cases a with
  | ctxDone =>
    simp only [ServiceHealthChecker.LaunchTargetHealthCheck] at h
    split at h
    · simp only [Option.some.injEq, Prod.mk.injEq] at h
      obtain ⟨h1, h2⟩ := h
      subst h1 h2
      simp
    · simp at h
  | recvTick =>
    simp only [ServiceHealthChecker.LaunchTargetHealthCheck] at h
    cases hw : w.tickerC with
    | none => simp [hw] at h
    | some t =>
      simp only [hw] at h
      split at h
      · simp only [Bool.false_eq_true, if_false, Option.some.injEq, Prod.mk.injEq] at h
        obtain ⟨h1, h2⟩ := h
        subst h1 h2
        simp
      · simp at h
  | handoff i =>
    simp only [ServiceHealthChecker.LaunchTargetHealthCheck] at h
    split at h
    · simp at h
    · simp at h
  | probeEnd env =>
    simp only [ServiceHealthChecker.LaunchTargetHealthCheck] at h
    split at h
    · split at h
      · simp at h
      · simp only [hzero, ne_eq, not_true_eq_false, and_false, if_false, Option.some.injEq,
          Prod.mk.injEq] at h
        obtain ⟨h1, h2⟩ := h
        subst h1 h2
        simp
    · simp at h
  | recheckTick i => simp [ServiceHealthChecker.LaunchTargetHealthCheck] at h
  | recheckProbeEnd i env => simp [ServiceHealthChecker.LaunchTargetHealthCheck] at h
  | recheckCtxDone i => simp [ServiceHealthChecker.LaunchTargetHealthCheck] at h
  | recheckEndClosed i => simp [ServiceHealthChecker.LaunchTargetHealthCheck] at h
  | recheckDefer i => simp [ServiceHealthChecker.LaunchTargetHealthCheck] at h

/-- A step keeps the invariant of a system whose checker has `recheck` at zero. -/
theorem step_noRecheck (shc : ServiceHealthChecker) (s s' : State) (a : Action)
    (hzero : shc.recheck = 0) (hinv : s.noRecheck) (h : step shc s a = some s') :
    s'.noRecheck := by
  cases a with
  | tick t =>
    simp only [step] at h
    split at h
    · simp only [Option.some.injEq] at h
      subst h
      exact hinv
    · simp only [Option.some.injEq] at h
      subst h
      exact hinv
  | cancel =>
    simp only [step, Option.some.injEq] at h
    subst h
    exact hinv
  | monitor proxyName a =>
    obtain ⟨m, w, m', hl, hm, hw, hms⟩ := step_monitor_eq_some shc s s' proxyName a h
    have hmem := mem_of_lookup_eq_some s.monitors proxyName m hl
    obtain ⟨h1, h2, h3⟩ := LaunchTargetHealthCheck_no_recheck shc proxyName s.world w m m' a hzero
      (hinv.1 _ hmem).1 (hinv.1 _ hmem).2 hm
    constructor
    · intro p hp
      rw [hms, List.mem_map] at hp
      obtain ⟨q, hq, hqp⟩ := hp
      by_cases hn : q.1 = proxyName
      · rw [if_pos hn] at hqp
        subst hqp
        exact ⟨h1, h2⟩
      · rw [if_neg hn] at hqp
        subst hqp
        exact hinv.1 _ hq
    · intro q hq
      rw [hw] at hq
      rcases h3 with ⟨h3, _⟩ | ⟨_, _, _, h3⟩
      · rw [h3] at hq
        exact hinv.2 _ hq
      · rw [h3, List.mem_append] at hq
        rcases hq with hq | hq
        · exact hinv.2 _ hq
        · simp only [List.mem_singleton] at hq
          subst hq
          rfl

/-- A schedule keeps the invariant of a system whose checker has `recheck` at zero. -/
theorem run_noRecheck (shc : ServiceHealthChecker) (schedule : List Action) (s s' : State)
    (hzero : shc.recheck = 0) (hinv : s.noRecheck) (h : run shc s schedule = some s') :
    s'.noRecheck := by
  induction schedule generalizing s with
  | nil =>
    simp only [run, Option.some.injEq] at h
    subst h
    exact hinv
  | cons a rest ih =>
    simp only [run] at h
    cases hs : step shc s a with
    | none => simp [hs] at h
    | some s1 =>
      simp only [hs] at h
      exact ih s1 (step_noRecheck shc s s1 a hzero hinv hs) h

/-- The system `Launch` starts has no recheck goroutine and has begun no probe. -/
theorem Launch_noRecheck (shc : ServiceHealthChecker) (ctx : Context) :
    (shc.Launch ctx).noRecheck := by
  constructor
  · intro p hp
    simp only [ServiceHealthChecker.Launch, List.mem_map] at hp
    obtain ⟨q, _, hq⟩ := hp
    subst hq
    exact ⟨rfl, rfl⟩
  · intro q hq
    simp [ServiceHealthChecker.Launch] at hq

/-- With the field `recheck` at zero and no recheck goroutine, a step does not
increase the number of probes begun plus the times buffered in `ticker.C`,
unless the timer fires, which adds at most one. -/
theorem step_probes_le (shc : ServiceHealthChecker) (s s' : State) (a : Action)
    (hzero : shc.recheck = 0) (hinv : s.noRecheck) (h : step shc s a = some s') :
    s'.world.probes.length + s'.world.buffered ≤
      s.world.probes.length + s.world.buffered + ticksFired [a] := by
  cases a with
  | tick t =>
    simp only [step] at h
    cases hw : s.world.tickerC with
    | none =>
      simp only [hw, Option.some.injEq] at h
      subst h
      simp [World.buffered, hw, ticksFired]
    | some t0 =>
      simp only [hw, Option.some.injEq] at h
      subst h
      simp [ticksFired]
  | cancel =>
    simp only [step, Option.some.injEq] at h
    subst h
    simp [World.buffered, ticksFired]
  | monitor proxyName a =>
    obtain ⟨m, w, m', hl, hm, hw, _⟩ := step_monitor_eq_some shc s s' proxyName a h
    have hmem := mem_of_lookup_eq_some s.monitors proxyName m hl
    obtain ⟨_, _, h3⟩ := LaunchTargetHealthCheck_no_recheck shc proxyName s.world w m m' a hzero
      (hinv.1 _ hmem).1 (hinv.1 _ hmem).2 hm
    rw [hw]
    rcases h3 with ⟨h3, h4⟩ | ⟨t, h3, h4, h5⟩
    · simp [World.buffered, h3, h4, ticksFired]
    · simp [World.buffered, h3, h4, h5, ticksFired]

/-- The number of times the timer fires in a schedule, by its first step. -/
theorem ticksFired_cons (a : Action) (rest : List Action) :
    ticksFired (a :: rest) = ticksFired [a] + ticksFired rest := by
  cases a <;> simp [ticksFired, Nat.add_comm]

/-- With the field `recheck` at zero and no recheck goroutine, a schedule begins
at most as many probes as the timer fires and `ticker.C` held. -/
theorem run_probes_le (shc : ServiceHealthChecker) (schedule : List Action) (s s' : State)
    (hzero : shc.recheck = 0) (hinv : s.noRecheck) (h : run shc s schedule = some s') :
    s'.world.probes.length + s'.world.buffered ≤
      s.world.probes.length + s.world.buffered + ticksFired schedule := by
  induction schedule generalizing s with
  | nil =>
    simp only [run, Option.some.injEq] at h
    subst h
    simp [ticksFired]
  | cons a rest ih =>
    simp only [run] at h
    cases hs : step shc s a with
    | none => simp [hs] at h
    | some s1 =>
      simp only [hs] at h
      have h1 := step_probes_le shc s s1 a hzero hinv hs
      have h2 := ih s1 (step_noRecheck shc s s1 a hzero hinv hs) h
      rw [ticksFired_cons]
      omega

/-- For a target of the checker, the reporting step returns. -/
theorem targetHealthCheck_returns (env : Env) (shc : ServiceHealthChecker) (ctx : Context)
    (proxyName : String) (target : URL) (log : List Event)
    (htarget : shc.targets.lookup proxyName = some target) :
    ∃ up events, shc.targetHealthCheck env ctx proxyName log = some (up, events) := by
  cases hres : shc.executeHealthCheck env ctx shc.config target with
  | none => exact ⟨_, _, targetHealthCheck_of_success env shc ctx proxyName target log htarget hres⟩
  | some err =>
    cases hc : errors.Is err context.Canceled with
    | true =>
      exact ⟨_, _, targetHealthCheck_of_canceled env shc ctx proxyName target log err htarget hres hc⟩
    | false =>
      exact ⟨_, _, targetHealthCheck_of_failure env shc ctx proxyName target log err htarget hres hc⟩

/-! ## Escalation, serialization and fan-out -/

/-- C4: the checker `NewServiceHealthChecker` builds does not move to Recheck
mode. The constructor leaves the field `recheck` at zero whatever the
configuration; so with a configured recheck interval of 5, when the probe of
the first interval tick fails (the server answers 503), the target is
reported down, but `recheckActive` stays false and no recheck goroutine is
started. -/
theorem NewServiceHealthChecker_recheck_unset :
    (sampleConfig "" 0 5).Recheck > 0 ∧
    (∀ (defaults : dynamic.Defaults) (metrics : metricsHealthCheck)
      (config : dynamic.ServerHealthCheck) (service : StatusSetter) (info : ServiceInfo)
      (transport : RoundTripper) (targets : List (String × URL)) (serviceName : String),
      (NewServiceHealthChecker defaults metrics config service info transport targets
        serviceName).recheck = 0) ∧
    run (sampleChecker "" 0 5 oneTarget) ((sampleChecker "" 0 5 oneTarget).Launch context.Background)
        (firstTick (Env.httpStatus 503)) =
      some { world :=
               { ctx := context.Background, tickerC := none, wg := 1,
                 events :=
                   [Event.Warn "http://10.0.0.1" (Error.New "received error status code: 503"),
                    Event.SetStatus "a" false,
                    Event.UpdateServerStatus "http://10.0.0.1" "down",
                    Event.GaugeSet ["service", "svc", "url", "http://10.0.0.1"] 0],
                 probes := [("a", ProbeKind.interval)] },
             monitors :=
               [("a", { pc := MonitorPC.select, recheckActive := false, rechecks := [] })] } := by
  refine ⟨by decide, ?_, by rfl⟩
  intro defaults metrics config service info transport targets serviceName
  rfl

/-- C7: two probes of one target in progress at once, and two recheck
goroutines running at once. With the field `recheck` at 1 and a server
answering 503, the schedule `raceSchedule` lets the deferred function of the
first recheck goroutine clear `recheckActive` after the monitor has set it for
the second one; the third interval tick then does not stop the second recheck
goroutine: the probe of the monitor and the probe of that goroutine are in
progress together, and when the probe of the monitor fails a third recheck
goroutine is started while the second is still in its loop. -/
theorem LaunchTargetHealthCheck_overlapping_probes :
    (run (sampleRechecker "" 1 oneTarget) ((sampleRechecker "" 1 oneTarget).Launch context.Background)
        raceSchedule).map State.monitors =
      some [("a", { pc := MonitorPC.probe, recheckActive := false,
                    rechecks := [RecheckPC.exited, RecheckPC.probe] })] ∧
    Monitor.inFlight { pc := MonitorPC.probe, recheckActive := false,
                       rechecks := [RecheckPC.exited, RecheckPC.probe] } = 2 ∧
    (run (sampleRechecker "" 1 oneTarget) ((sampleRechecker "" 1 oneTarget).Launch context.Background)
        (raceSchedule ++ [Action.monitor "a" (MonitorAction.probeEnd (Env.httpStatus 503))])).map
        State.monitors =
      some [("a", { pc := MonitorPC.select, recheckActive := true,
                    rechecks := [RecheckPC.exited, RecheckPC.probe, RecheckPC.select] })] ∧
    Monitor.running { pc := MonitorPC.select, recheckActive := true,
                      rechecks := [RecheckPC.exited, RecheckPC.probe, RecheckPC.select] } = 2 := by
  refine ⟨by rfl, by rfl, by rfl, by rfl⟩

/-- C8: the monitors share the one channel `ticker.C`, and a time sent on it is
received by one monitor only. For a checker whose field `recheck` is zero (as
the constructor builds it), whatever the number of targets and the schedule,
the probes begun and the time still buffered number at most the times the
timer has fired: a tick makes at most one monitor probe, not every
monitor. -/
theorem Launch_probes_le_ticks (shc : ServiceHealthChecker) (ctx : Context)
    (schedule : List Action) (s : State) (hzero : shc.recheck = 0)
    (hrun : run shc (shc.Launch ctx) schedule = some s) :
    s.world.probes.length + s.world.buffered ≤ ticksFired schedule := by
  have h := run_probes_le shc schedule (shc.Launch ctx) s hzero (Launch_noRecheck shc ctx) hrun
  simpa [ServiceHealthChecker.Launch, World.buffered] using h

/-- Two targets and one tick: the monitor of `a` receives it and begins its
probe, the monitor of `b` has nothing to receive, and one probe is begun. -/
theorem Launch_probes_le_ticks_witness :
    (sampleChecker "" 0 0 sampleTargets).targets.length = 2 ∧
    run (sampleChecker "" 0 0 sampleTargets)
        ((sampleChecker "" 0 0 sampleTargets).Launch context.Background)
        [Action.tick 1, Action.monitor "a" MonitorAction.recvTick] =
      some { world := { ctx := context.Background, tickerC := none, wg := 2, events := [],
                        probes := [("a", ProbeKind.interval)] },
             monitors := [("a", { pc := MonitorPC.probe, recheckActive := false, rechecks := [] }),
                          ("b", Monitor.init)] } ∧
    step (sampleChecker "" 0 0 sampleTargets)
        { world := { ctx := context.Background, tickerC := none, wg := 2, events := [],
                     probes := [("a", ProbeKind.interval)] },
          monitors := [("a", { pc := MonitorPC.probe, recheckActive := false, rechecks := [] }),
                       ("b", Monitor.init)] }
        (Action.monitor "b" MonitorAction.recvTick) = none ∧
    [("a", ProbeKind.interval)].length + 0 ≤ 1 :=
  ⟨by rfl, by rfl, by rfl,
   Launch_probes_le_ticks (sampleChecker "" 0 0 sampleTargets) context.Background
     [Action.tick 1, Action.monitor "a" MonitorAction.recvTick]
     { world := { ctx := context.Background, tickerC := none, wg := 2, events := [],
                  probes := [("a", ProbeKind.interval)] },
       monitors := [("a", { pc := MonitorPC.probe, recheckActive := false, rechecks := [] }),
                    ("b", Monitor.init)] }
     (by rfl) (by rfl)⟩

/-- C9, refuted: after a probe that ends with a cancellation error (the health
RPC fails with the code Canceled) nothing is reported, and the monitor goes
on. A checker built by the constructor is back in its `select` and begins a
probe on the next interval tick; a checker whose field `recheck` is 1 has
started a recheck goroutine, which probes on its own tick, and after a
cancellation error of that probe probes again. -/
theorem LaunchTargetHealthCheck_continues_after_canceled :
    run (sampleChecker "grpc" 0 0 oneTarget)
        ((sampleChecker "grpc" 0 0 oneTarget).Launch context.Background)
        (firstTick Env.rpcCanceled ++ [Action.tick 2, Action.monitor "a" MonitorAction.recvTick]) =
      some { world := { ctx := context.Background, tickerC := none, wg := 1, events := [],
                        probes := [("a", ProbeKind.interval), ("a", ProbeKind.interval)] },
             monitors :=
               [("a", { pc := MonitorPC.probe, recheckActive := false, rechecks := [] })] } ∧
    run (sampleRechecker "grpc" 1 oneTarget)
        ((sampleRechecker "grpc" 1 oneTarget).Launch context.Background)
        (firstTick Env.rpcCanceled ++ [Action.monitor "a" (MonitorAction.recheckTick 0)]) =
      some { world := { ctx := context.Background, tickerC := none, wg := 1, events := [],
                        probes := [("a", ProbeKind.interval), ("a", ProbeKind.recheck)] },
             monitors :=
               [("a", { pc := MonitorPC.select, recheckActive := true,
                        rechecks := [RecheckPC.probe] })] } ∧
    run (sampleRechecker "grpc" 1 oneTarget)
        ((sampleRechecker "grpc" 1 oneTarget).Launch context.Background)
        (firstTick Env.rpcCanceled ++
          [Action.monitor "a" (MonitorAction.recheckTick 0),
           Action.monitor "a" (MonitorAction.recheckProbeEnd 0 Env.rpcCanceled),
           Action.monitor "a" (MonitorAction.recheckTick 0)]) =
      some { world := { ctx := context.Background, tickerC := none, wg := 1, events := [],
                        probes := [("a", ProbeKind.interval), ("a", ProbeKind.recheck),
                                   ("a", ProbeKind.recheck)] },
             monitors :=
               [("a", { pc := MonitorPC.select, recheckActive := true,
                        rechecks := [RecheckPC.probe] })] } := by
  refine ⟨by rfl, by rfl, by rfl⟩

/-- C10: for a checker whose field `recheck` is zero, in every state the system
reaches from `Launch`, the monitor of a target has `recheckActive` false and
no recheck goroutine, and every probe begun so far was an interval probe.
Processing an interval tick is: receiving the time (which begins the probe),
and, whatever the result of the probe, returning to the `select` with
`recheckActive` false and no recheck goroutine started. A step of the
monitor that begins a probe takes a time from `ticker.C`: the next probe
happens on a later interval tick. -/
theorem LaunchTargetHealthCheck_recheck_disabled (shc : ServiceHealthChecker) (ctx : Context)
    (schedule : List Action) (s : State) (proxyName : String) (m : Monitor) (target : URL)
    (env : Env) (hzero : shc.recheck = 0)
    (hrun : run shc (shc.Launch ctx) schedule = some s)
    (hm : s.monitors.lookup proxyName = some m)
    (htarget : shc.targets.lookup proxyName = some target) :
    m.recheckActive = false ∧ m.rechecks = [] ∧ m.running = 0 ∧
    (∀ q ∈ s.world.probes, q.2 = ProbeKind.interval) ∧
    (∀ t, m.pc = MonitorPC.select → s.world.tickerC = some t →
      shc.LaunchTargetHealthCheck proxyName s.world m MonitorAction.recvTick =
        some ({ s.world with tickerC := none,
                             probes := s.world.probes ++ [(proxyName, ProbeKind.interval)] },
              { m with pc := MonitorPC.probe })) ∧
    (∀ w : World, ∃ up events,
      shc.targetHealthCheck env w.ctx proxyName w.events = some (up, events) ∧
      shc.LaunchTargetHealthCheck proxyName w { m with pc := MonitorPC.probe }
          (MonitorAction.probeEnd env) =
        some ({ w with events := events }, { m with pc := MonitorPC.select })) ∧
    (∀ a w' m', shc.LaunchTargetHealthCheck proxyName s.world m a = some (w', m') →
      w'.probes ≠ s.world.probes →
      (∃ t, s.world.tickerC = some t) ∧
        w'.probes = s.world.probes ++ [(proxyName, ProbeKind.interval)]) := by
  have hinv := run_noRecheck shc schedule (shc.Launch ctx) s hzero (Launch_noRecheck shc ctx) hrun
  have hmem := mem_of_lookup_eq_some s.monitors proxyName m hm
  have hactive : m.recheckActive = false := (hinv.1 _ hmem).1
  have hnone : m.rechecks = [] := (hinv.1 _ hmem).2
  refine ⟨hactive, hnone, ?_, hinv.2, ?_, ?_, ?_⟩
  · simp [Monitor.running, hnone]
  · intro t hpc ht
    simp only [ServiceHealthChecker.LaunchTargetHealthCheck, ht, hpc, hactive, if_true,
      Bool.false_eq_true, if_false]
  · intro w
    obtain ⟨up, events, hthc⟩ :=
      targetHealthCheck_returns env shc w.ctx proxyName target w.events htarget
    refine ⟨up, events, hthc, ?_⟩
    simp only [ServiceHealthChecker.LaunchTargetHealthCheck, hthc, hzero, if_true, ne_eq,
      not_true_eq_false, and_false, if_false]
  · intro a w' m' hstep hne
    obtain ⟨_, _, h3⟩ := LaunchTargetHealthCheck_no_recheck shc proxyName s.world w' m m' a hzero
      hactive hnone hstep
    rcases h3 with ⟨h3, _⟩ | ⟨t, h3, _, h5⟩
    · exact absurd h3 hne
    · exact ⟨⟨t, h3⟩, h5⟩

/-- The processing of the first interval tick by a checker whose field `recheck`
is zero, the probe failing: the monitor is back in Interval mode. -/
theorem LaunchTargetHealthCheck_recheck_disabled_witness :
    run (sampleChecker "" 0 0 sampleTargets)
        ((sampleChecker "" 0 0 sampleTargets).Launch context.Background)
        (firstTick (Env.httpStatus 503)) =
      some { world :=
               { ctx := context.Background, tickerC := none, wg := 2,
                 events :=
                   [Event.Warn "http://10.0.0.1" (Error.New "received error status code: 503"),
                    Event.SetStatus "a" false,
                    Event.UpdateServerStatus "http://10.0.0.1" "down",
                    Event.GaugeSet ["service", "svc", "url", "http://10.0.0.1"] 0],
                 probes := [("a", ProbeKind.interval)] },
             monitors := [("a", Monitor.init), ("b", Monitor.init)] } ∧
    Monitor.init.recheckActive = false ∧ Monitor.init.rechecks = [] ∧
    Monitor.init.running = 0 ∧
    ∀ q ∈ [("a", ProbeKind.interval)], q.2 = ProbeKind.interval :=
  have h := LaunchTargetHealthCheck_recheck_disabled (sampleChecker "" 0 0 sampleTargets)
    context.Background (firstTick (Env.httpStatus 503))
    { world :=
        { ctx := context.Background, tickerC := none, wg := 2,
          events :=
            [Event.Warn "http://10.0.0.1" (Error.New "received error status code: 503"),
             Event.SetStatus "a" false,
             Event.UpdateServerStatus "http://10.0.0.1" "down",
             Event.GaugeSet ["service", "svc", "url", "http://10.0.0.1"] 0],
          probes := [("a", ProbeKind.interval)] },
      monitors := [("a", Monitor.init), ("b", Monitor.init)] }
    "a" Monitor.init { Scheme := "http", Host := "10.0.0.1", Path := "" } (Env.httpStatus 503)
    (by rfl) (by rfl) (by rfl) (by rfl)
  ⟨by rfl, h.1, h.2.1, h.2.2.1, h.2.2.2.1⟩

/-- C9, amended: when the probe executed on an interval tick ends with an error
that is or wraps `context.Canceled`, nothing is reported and the monitor
does not terminate: it returns to its `select`, having handled the result
false as after a failed probe (with `recheck` not zero, `recheckActive` is
set and a recheck goroutine is started). When the probe executed on a
recheck tick ends so, nothing is reported and the recheck goroutine returns
to its `select`. The monitor terminates by one step only: taking
`ctx.Done()` in its `select`, the context being cancelled. -/
theorem LaunchTargetHealthCheck_inconclusive (shc : ServiceHealthChecker) (proxyName : String)
    (w : World) (m : Monitor) (env : Env) (target : URL) (err : Error)
    (htarget : shc.targets.lookup proxyName = some target)
    (herr : shc.executeHealthCheck env w.ctx shc.config target = some err)
    (hcancel : errors.Is err context.Canceled = true) :
    (m.pc = MonitorPC.probe →
      shc.LaunchTargetHealthCheck proxyName w m (MonitorAction.probeEnd env) =
        some (w,
          if shc.recheck ≠ 0 then
            { pc := MonitorPC.select, recheckActive := true,
              rechecks := m.rechecks ++ [RecheckPC.select] }
          else { m with pc := MonitorPC.select })) ∧
    (∀ i, m.rechecks.get? i = some RecheckPC.probe →
      shc.LaunchTargetHealthCheck proxyName w m (MonitorAction.recheckProbeEnd i env) =
        some (w, { m with rechecks := m.rechecks.set i RecheckPC.select })) ∧
    (∀ a w' m', shc.LaunchTargetHealthCheck proxyName w m a = some (w', m') →
      m.pc ≠ MonitorPC.done → m'.pc = MonitorPC.done →
      m.pc = MonitorPC.select ∧ w.ctx.done = true) := by
  have hthc := targetHealthCheck_of_canceled env shc w.ctx proxyName target w.events err htarget
    herr hcancel
  refine ⟨?_, ?_, ?_⟩
  · intro hpc
    simp only [ServiceHealthChecker.LaunchTargetHealthCheck, hpc, hthc, if_true, true_and]
    by_cases hz : shc.recheck = 0
    · simp [hz]
    · simp [hz]
  · intro i hi
    simp only [ServiceHealthChecker.LaunchTargetHealthCheck, hi, hthc, if_true]
    simp
  · intro a w' m' hstep hnd hd
    cases a with
    | ctxDone =>
      simp only [ServiceHealthChecker.LaunchTargetHealthCheck] at hstep
      split at hstep
      · assumption
      · simp at hstep
    | recvTick =>
      simp only [ServiceHealthChecker.LaunchTargetHealthCheck] at hstep
      split at hstep
      · simp at hstep
      · split at hstep
        · split at hstep
          · simp only [Option.some.injEq, Prod.mk.injEq] at hstep
            rw [← hstep.2] at hd
            simp at hd
          · simp only [Option.some.injEq, Prod.mk.injEq] at hstep
            rw [← hstep.2] at hd
            simp at hd
        · simp at hstep
    | handoff i =>
      simp only [ServiceHealthChecker.LaunchTargetHealthCheck] at hstep
      split at hstep
      · split at hstep
        · simp only [Option.some.injEq, Prod.mk.injEq] at hstep
          rw [← hstep.2] at hd
          simp at hd
        · simp at hstep
      · simp at hstep
    | probeEnd env' =>
      simp only [ServiceHealthChecker.LaunchTargetHealthCheck] at hstep
      split at hstep
      · split at hstep
        · simp at hstep
        · split at hstep
          · simp only [Option.some.injEq, Prod.mk.injEq] at hstep
            rw [← hstep.2] at hd
            simp at hd
          · simp only [Option.some.injEq, Prod.mk.injEq] at hstep
            rw [← hstep.2] at hd
            simp at hd
      · simp at hstep
    | recheckTick i =>
      simp only [ServiceHealthChecker.LaunchTargetHealthCheck] at hstep
      split at hstep
      · simp only [Option.some.injEq, Prod.mk.injEq] at hstep
        rw [← hstep.2] at hd
        exact absurd hd hnd
      · simp at hstep
    | recheckProbeEnd i env' =>
      simp only [ServiceHealthChecker.LaunchTargetHealthCheck] at hstep
      split at hstep
      · split at hstep
        · simp at hstep
        · split at hstep
          · simp only [Option.some.injEq, Prod.mk.injEq] at hstep
            rw [← hstep.2] at hd
            exact absurd hd hnd
          · simp only [Option.some.injEq, Prod.mk.injEq] at hstep
            rw [← hstep.2] at hd
            exact absurd hd hnd
      · simp at hstep
    | recheckCtxDone i =>
      simp only [ServiceHealthChecker.LaunchTargetHealthCheck] at hstep
      split at hstep
      · simp only [Option.some.injEq, Prod.mk.injEq] at hstep
        rw [← hstep.2] at hd
        exact absurd hd hnd
      · simp at hstep
    | recheckEndClosed i =>
      simp only [ServiceHealthChecker.LaunchTargetHealthCheck] at hstep
      split at hstep
      · simp only [Option.some.injEq, Prod.mk.injEq] at hstep
        rw [← hstep.2] at hd
        exact absurd hd hnd
      · simp at hstep
    | recheckDefer i =>
      simp only [ServiceHealthChecker.LaunchTargetHealthCheck] at hstep
      split at hstep
      · simp only [Option.some.injEq, Prod.mk.injEq] at hstep
        rw [← hstep.2] at hd
        exact absurd hd hnd
      · simp at hstep

/-- The monitor of `a`, with `recheck` at 1, after an interval probe that ended
with the code Canceled: nothing reported, a recheck goroutine started. -/
theorem LaunchTargetHealthCheck_inconclusive_witness :
    (sampleRechecker "grpc" 1 oneTarget).LaunchTargetHealthCheck "a"
        { ctx := context.Background, tickerC := none, wg := 1, events := [],
          probes := [("a", ProbeKind.interval)] }
        { pc := MonitorPC.probe, recheckActive := false, rechecks := [] }
        (MonitorAction.probeEnd Env.rpcCanceled) =
      some ({ ctx := context.Background, tickerC := none, wg := 1, events := [],
              probes := [("a", ProbeKind.interval)] },
            { pc := MonitorPC.select, recheckActive := true, rechecks := [RecheckPC.select] }) :=
  (LaunchTargetHealthCheck_inconclusive (sampleRechecker "grpc" 1 oneTarget) "a"
    { ctx := context.Background, tickerC := none, wg := 1, events := [],
      probes := [("a", ProbeKind.interval)] }
    { pc := MonitorPC.probe, recheckActive := false, rechecks := [] }
    Env.rpcCanceled { Scheme := "http", Host := "10.0.0.1", Path := "" } context.Canceled
    (by rfl) (by rfl) (by rfl)).1 (by rfl)

end healthcheck
